import Mathlib

/-!
Verification development for the RPI_API telemetry pipeline
(`bitergy_api/services/data_provider.py` and the Pydantic models it uses).

The Python functions are shallowly embedded as executable Lean functions:
  * Python `dict` (insertion ordered, in-place update) is modelled as an
    association list with `lookup` / `insertKV`.
  * Python `float` values compared with `<` / `>` are modelled as `Rat`.
  * `datetime` values, which are only compared and copied, are modelled as `Nat`.
  * A raw store record whose extraction (`get_measurement` / `get_field` /
    `get_value` / `get_time`) raises one of the caught exception classes is
    modelled as `none` in the input batch; a successfully extracted record is
    `some r` with `r.value = none` when the stored value is null.
-/

set_option autoImplicit false

namespace RPI

/-- Python-dict lookup `d.get(k)` on an insertion-ordered association list. -/
def lookup {α : Type} (d : List (String × α)) (k : String) : Option α :=
  match d with
  | [] => none
  | (k2, v) :: rest => if k2 = k then some v else lookup rest k

/-- Python-dict assignment `d[k] = v`: replaces in place when the key exists,
otherwise appends, preserving insertion order. -/
def insertKV {α : Type} (d : List (String × α)) (k : String) (v : α) : List (String × α) :=
  match d with
  | [] => [(k, v)]
  | (k2, v2) :: rest => if k2 = k then (k, v) :: rest else (k2, v2) :: insertKV rest k v

/-- Embeds `SeverityLevel` from `core/enums.py`. -/
inductive SeverityLevel : Type where
  | NORMAL
  | LOW
  | HIGH
  | CRITICAL_LOW
  | CRITICAL_HIGH
  | UNKNOWN
deriving DecidableEq, Repr

/-- Embeds `Thresholds` from `models/common.py`: four optional bounds. -/
structure Thresholds : Type where
  critical_low : Option Rat
  low : Option Rat
  high : Option Rat
  critical_high : Option Rat
deriving DecidableEq, Repr

/-- Embeds `InstallationThresholds` from `models/common.py`. -/
structure InstallationThresholds : Type where
  voltage : Option Thresholds
  current : Option Thresholds
  frequency : Option Thresholds
  power_factor : Option Thresholds
  temperature : Option Thresholds
  humidity : Option Thresholds
  level : Option Thresholds
deriving DecidableEq, Repr

/-- Python `b is not None and v < b` for an optional bound `b`. -/
def checkBelow (b : Option Rat) (v : Rat) : Bool :=
  match b with
  | some x => decide (v < x)
  | none => false

/-- Python `b is not None and v > b` for an optional bound `b`. -/
def checkAbove (b : Option Rat) (v : Rat) : Bool :=
  match b with
  | some x => decide (x < v)
  | none => false

/-- Embeds `_calculate_severity` from `services/data_provider.py`:
first-match-wins rule chain over the optional bounds. -/
def calculate_severity (value : Option Rat) (thresholds : Option Thresholds) : SeverityLevel :=
  match value, thresholds with
  | some v, some t =>
    if checkBelow t.critical_low v then SeverityLevel.CRITICAL_LOW
    else if checkBelow t.low v then SeverityLevel.LOW
    else if checkAbove t.critical_high v then SeverityLevel.CRITICAL_HIGH
    else if checkAbove t.high v then SeverityLevel.HIGH
    else SeverityLevel.NORMAL
  | _, _ => SeverityLevel.UNKNOWN

/-- Embeds `get_unit_for_measurement` from `services/data_provider.py`.
The `field` argument is unused by the source as well. -/
def get_unit_for_measurement (measurement : String) (field : Option String) : String :=
  let units : List (String × String) :=
    [("voltage", "V"), ("current", "A"), ("active_power", "kW"),
     ("apparent_power", "kVA"), ("reactive_power", "kVAR"), ("power_factor", ""),
     ("frequency", "Hz"), ("energy", "kWh"),
     ("temperature", "°C"), ("humidity", "%"), ("level", "m")]
  if measurement = "power_factor" then ""
  else if measurement = "energy" then "kWh"
  else (lookup units measurement).getD "unknown_unit"

/-- Embeds `_get_thresholds_for_installation` from `services/data_provider.py`:
hard-coded registry with one configured installation. -/
def get_thresholds_for_installation (installation_id : String) : Option InstallationThresholds :=
  if installation_id = "siteA-mainpanel" then
    some { voltage := some ⟨some 207, some 218.5, some 241.5, some 253⟩
           current := some ⟨none, none, some 80, some 95⟩
           frequency := some ⟨some 48, some 49.5, some 50.5, some 52⟩
           power_factor := none
           temperature := some ⟨none, some 5, some 40, some 50⟩
           humidity := some ⟨none, none, some 85, some 95⟩
           level := none }
  else none

/-- A successfully extracted time-series record: `get_measurement`, `get_field`,
`get_time` succeeded (`time : Nat`), `get_value` returned a float or null,
and the optional `location` tag read by the physical path. -/
structure Record : Type where
  measurement : String
  field : String
  value : Option Rat
  time : Nat
  location : Option String
deriving DecidableEq, Repr

/-- Embeds `ElectricalVariableValue` (from `BaseVariableValue`, `models/common.py`). -/
structure ElectricalVariableValue : Type where
  value : Option Rat
  unit : String
  severity : SeverityLevel
deriving DecidableEq, Repr

/-- Embeds `PhysicalVariableValue` from `models/physical.py`. -/
structure PhysicalVariableValue : Type where
  value : Option Rat
  unit : String
  severity : SeverityLevel
  sensor_location : Option String
deriving DecidableEq, Repr

/-- Embeds `PhaseData` from `models/electrical.py`. -/
structure PhaseData : Type where
  a : Option ElectricalVariableValue
  b : Option ElectricalVariableValue
  c : Option ElectricalVariableValue
deriving DecidableEq, Repr

/-- Embeds `RealtimeElectricalData` from `models/electrical.py`. -/
structure RealtimeElectricalData : Type where
  timestamp : Nat
  asset_id : String
  voltage : Option PhaseData
  current : Option PhaseData
  active_power : Option PhaseData
  apparent_power : Option PhaseData
  reactive_power : Option PhaseData
  power_factor : Option PhaseData
  frequency : Option ElectricalVariableValue
  total_active_power : Option ElectricalVariableValue
  total_energy_kwh : Option ElectricalVariableValue
deriving DecidableEq, Repr

/-- Embeds `RealtimePhysicalData` from `models/physical.py`. -/
structure RealtimePhysicalData : Type where
  timestamp : Nat
  asset_id : String
  temperature : Option PhysicalVariableValue
  humidity : Option PhysicalVariableValue
  level : Option PhysicalVariableValue
deriving DecidableEq, Repr

/-- The threshold-resolution conditional of `get_realtime_electrical_data`
(lines 131-137): only voltage/current/frequency/power_factor are covered. -/
def electricalThresholdsFor (threshold_config : Option InstallationThresholds)
    (measurement : String) : Option Thresholds :=
  match threshold_config with
  | none => none
  | some cfg =>
    if measurement = "voltage" then cfg.voltage
    else if measurement = "current" then cfg.current
    else if measurement = "frequency" then cfg.frequency
    else if measurement = "power_factor" then cfg.power_factor
    else none

/-- The threshold-resolution conditional of `get_realtime_physical_data`
(lines 210-214): temperature/humidity/level. -/
def physicalThresholdsFor (threshold_config : Option InstallationThresholds)
    (measurement : String) : Option Thresholds :=
  match threshold_config with
  | none => none
  | some cfg =>
    if measurement = "temperature" then cfg.temperature
    else if measurement = "humidity" then cfg.humidity
    else if measurement = "level" then cfg.level
    else none

/-- The `ElectricalVariableValue(...)` construction of
`get_realtime_electrical_data` (lines 139-143) for one record. -/
def mkElectricalValue (threshold_config : Option InstallationThresholds)
    (r : Record) : ElectricalVariableValue :=
  { value := r.value
    unit := get_unit_for_measurement r.measurement (some r.field)
    severity := calculate_severity r.value (electricalThresholdsFor threshold_config r.measurement) }

/-- The `PhysicalVariableValue(...)` construction of
`get_realtime_physical_data` (lines 219-224) for one record. -/
def mkPhysicalValue (threshold_config : Option InstallationThresholds)
    (r : Record) : PhysicalVariableValue :=
  { value := r.value
    unit := get_unit_for_measurement r.measurement (some r.field)
    severity := calculate_severity r.value (physicalThresholdsFor threshold_config r.measurement)
    sensor_location := r.location }

/-- The `latest_timestamp` update shared by both realtime loops
(`if latest_timestamp is None or time > latest_timestamp`). -/
def updateLatestTimestamp (latest_timestamp : Option Nat) (time : Nat) : Option Nat :=
  match latest_timestamp with
  | none => some time
  | some t => if time > t then some time else some t

/-- Loop state of `get_realtime_electrical_data`: the `latest_data`
measurement→field→value accumulator and `latest_timestamp`. -/
structure ElecState : Type where
  latest_data : List (String × List (String × ElectricalVariableValue))
  latest_timestamp : Option Nat
deriving DecidableEq, Repr

/-- One iteration of the record loop of `get_realtime_electrical_data`
(lines 118-146). A record whose extraction raises (`none`) is skipped
before any state change. -/
def elecStep (threshold_config : Option InstallationThresholds)
    (s : ElecState) (r : Option Record) : ElecState :=
  match r with
  | none => s
  | some rec =>
    let inner := (lookup s.latest_data rec.measurement).getD []
    { latest_data := insertKV s.latest_data rec.measurement
        (insertKV inner rec.field (mkElectricalValue threshold_config rec))
      latest_timestamp := updateLatestTimestamp s.latest_timestamp rec.time }

/-- The `PhaseData(...) if m in latest_data else None` assembly
(lines 156-161) for one measurement. -/
def phaseFor (latest_data : List (String × List (String × ElectricalVariableValue)))
    (m : String) : Option PhaseData :=
  match lookup latest_data m with
  | none => none
  | some inner => some ⟨lookup inner "phase_a", lookup inner "phase_b", lookup inner "phase_c"⟩

/-- Embeds `get_realtime_electrical_data` (lines 89-173). The store batch is
flattened to a list whose `none` entries are records that fail extraction;
`threshold_config` stands for `_get_thresholds_for_installation(installation_id)`
and `now` for `datetime.utcnow()` in the timestamp fallback. -/
def get_realtime_electrical_data (now : Nat) (installation_id : String)
    (threshold_config : Option InstallationThresholds)
    (batch : List (Option Record)) : Option RealtimeElectricalData :=
  if batch.isEmpty then none
  else
    let s := batch.foldl (elecStep threshold_config) ⟨[], none⟩
    if s.latest_data.isEmpty then none
    else some
      { timestamp := s.latest_timestamp.getD now
        asset_id := installation_id
        voltage := phaseFor s.latest_data "voltage"
        current := phaseFor s.latest_data "current"
        active_power := phaseFor s.latest_data "active_power"
        apparent_power := phaseFor s.latest_data "apparent_power"
        reactive_power := phaseFor s.latest_data "reactive_power"
        power_factor := phaseFor s.latest_data "power_factor"
        frequency := lookup ((lookup s.latest_data "frequency").getD []) "value"
        total_active_power := lookup ((lookup s.latest_data "active_power").getD []) "total"
        total_energy_kwh := lookup ((lookup s.latest_data "energy").getD []) "total_kwh" }

/-- Loop state of `get_realtime_physical_data`. -/
structure PhysState : Type where
  latest_data : List (String × PhysicalVariableValue)
  latest_timestamp : Option Nat
deriving DecidableEq, Repr

/-- One iteration of the record loop of `get_realtime_physical_data`
(lines 200-227): store the value only when the measurement has no entry yet
or the field is the canonical `"value"`. -/
def physStep (threshold_config : Option InstallationThresholds)
    (s : PhysState) (r : Option Record) : PhysState :=
  match r with
  | none => s
  | some rec =>
    { latest_data :=
        if (lookup s.latest_data rec.measurement).isNone ∨ rec.field = "value" then
          insertKV s.latest_data rec.measurement (mkPhysicalValue threshold_config rec)
        else s.latest_data
      latest_timestamp := updateLatestTimestamp s.latest_timestamp rec.time }

/-- Embeds `get_realtime_physical_data` (lines 175-245). -/
def get_realtime_physical_data (now : Nat) (installation_id : String)
    (threshold_config : Option InstallationThresholds)
    (batch : List (Option Record)) : Option RealtimePhysicalData :=
  if batch.isEmpty then none
  else
    let s := batch.foldl (physStep threshold_config) ⟨[], none⟩
    if s.latest_data.isEmpty then none
    else some
      { timestamp := s.latest_timestamp.getD now
        asset_id := installation_id
        temperature := lookup s.latest_data "temperature"
        humidity := lookup s.latest_data "humidity"
        level := lookup s.latest_data "level" }

/-- Embeds Python `str.replace('_', ' ')` (single-character pattern). -/
def replaceUnderscores (s : String) : String :=
  String.mk (s.data.map (fun c => if c = '_' then ' ' else c))

/-- Character loop of Python `str.title()`: a letter that follows a letter is
lowercased, a letter that follows a non-letter is uppercased. -/
def titleChars : List Char → Bool → List Char
  | [], _ => []
  | c :: rest, prevAlpha =>
    if c.isAlpha then
      (if prevAlpha then c.toLower else c.toUpper) :: titleChars rest true
    else
      c :: titleChars rest false

/-- Embeds Python `str.title()` on the ASCII measurement/field names used here. -/
def pyTitle (s : String) : String :=
  String.mk (titleChars s.data false)

/-- The composite `x.replace('_', ' ').title()` applied to every measurement
and field name in the historical paths. -/
def titlecase (s : String) : String :=
  pyTitle (replaceUnderscores s)

/-- Series naming of `get_historical_electrical_data` (lines 406-408):
`Titlecase(measurement) + " " + Titlecase(field)`, but `frequency` and
`energy` use the measurement alone. -/
def electricalSeriesName (measurement field : String) : String :=
  if measurement = "frequency" ∨ measurement = "energy" then titlecase measurement
  else titlecase measurement ++ " " ++ titlecase field

/-- Series naming of `get_historical_physical_data` (lines 456-457):
`Titlecase(measurement)`, with the field appended only when the field is not
`"value"` and the value is non-null. -/
def physicalSeriesName (measurement field : String) (value : Option Rat) : String :=
  if field ≠ "value" ∧ value.isSome then
    titlecase measurement ++ " " ++ titlecase field
  else titlecase measurement

/-- Embeds `HistoricalDataPoint` from `models/common.py`; its `value` is a
required float, so constructing it from a null value raises a pydantic
`ValidationError` (a `ValueError`), which the historical loops catch. -/
structure HistoricalDataPoint : Type where
  timestamp : Nat
  value : Rat
  unit : String
deriving DecidableEq, Repr

/-- Embeds `GroupedHistoricalElectricalData` from `models/electrical.py`. -/
structure GroupedHistoricalElectricalData : Type where
  asset_id : String
  start_time : Nat
  end_time : Nat
  data : List (String × List HistoricalDataPoint)
deriving DecidableEq, Repr

/-- Embeds `GroupedHistoricalPhysicalData` from `models/physical.py`. -/
structure GroupedHistoricalPhysicalData : Type where
  asset_id : String
  start_time : Nat
  end_time : Nat
  data : List (String × List HistoricalDataPoint)
deriving DecidableEq, Repr

/-- One iteration of the record loop of `get_historical_electrical_data`
(lines 403-411). The `grouped_data[name] = []` initialisation happens before
the point is constructed, so a record whose null value makes
`HistoricalDataPoint` fail to parse still leaves the (possibly empty) series
entry behind. -/
def histElecStep (grouped_data : List (String × List HistoricalDataPoint))
    (r : Option Record) : List (String × List HistoricalDataPoint) :=
  match r with
  | none => grouped_data
  | some rec =>
    let unit := get_unit_for_measurement rec.measurement (some rec.field)
    let name := electricalSeriesName rec.measurement rec.field
    let gd := if (lookup grouped_data name).isNone then insertKV grouped_data name []
              else grouped_data
    match rec.value with
    | some v => insertKV gd name ((lookup gd name).getD [] ++ [⟨rec.time, v, unit⟩])
    | none => gd

/-- One iteration of the record loop of `get_historical_physical_data`
(lines 452-460), with the physical naming rule. -/
def histPhysStep (grouped_data : List (String × List HistoricalDataPoint))
    (r : Option Record) : List (String × List HistoricalDataPoint) :=
  match r with
  | none => grouped_data
  | some rec =>
    let unit := get_unit_for_measurement rec.measurement (some rec.field)
    let name := physicalSeriesName rec.measurement rec.field rec.value
    let gd := if (lookup grouped_data name).isNone then insertKV grouped_data name []
              else grouped_data
    match rec.value with
    | some v => insertKV gd name ((lookup gd name).getD [] ++ [⟨rec.time, v, unit⟩])
    | none => gd

/-- Embeds `get_historical_electrical_data` (second definition, lines
373-418, whose record processing equals the first definition's). -/
def get_historical_electrical_data (installation_id : String)
    (start_time end_time : Nat)
    (batch : List (Option Record)) : Option GroupedHistoricalElectricalData :=
  if batch.isEmpty then none
  else
    let gd := batch.foldl histElecStep []
    if gd.isEmpty then none
    else some ⟨installation_id, start_time, end_time, gd⟩

/-- Embeds `get_historical_physical_data` (second definition, lines
421-466, whose record processing equals the first definition's). -/
def get_historical_physical_data (installation_id : String)
    (start_time end_time : Nat)
    (batch : List (Option Record)) : Option GroupedHistoricalPhysicalData :=
  if batch.isEmpty then none
  else
    let gd := batch.foldl histPhysStep []
    if gd.isEmpty then none
    else some ⟨installation_id, start_time, end_time, gd⟩

/-- Maximum time of the successfully parsed records of a batch, folded from
an optional accumulator: the specification of the snapshot timestamp. -/
def maxTimeFrom (acc : Option Nat) : List (Option Record) → Option Nat
  | [] => acc
  | none :: rest => maxTimeFrom acc rest
  | some rec :: rest => maxTimeFrom (some (max (acc.getD rec.time) rec.time)) rest

/-- Maximum time observed across the successfully parsed records of a batch. -/
def batchMaxTime (batch : List (Option Record)) : Option Nat :=
  maxTimeFrom none batch

/-- A JSON field value arriving in `IngestData.fields` (`Dict[str, Any]`):
number, string or boolean. -/
inductive FieldValue : Type where
  | num (q : Rat)
  | str (s : String)
  | bool (b : Bool)
deriving DecidableEq, Repr

/-- Leading decimal digits of a character list. -/
def spanDigits : List Char → List Char × List Char
  | [] => ([], [])
  | c :: rest =>
    if c.isDigit then
      let p := spanDigits rest
      (c :: p.1, p.2)
    else ([], c :: rest)

/-- Numeric value of a digit string. -/
def digitsVal (cs : List Char) : Nat :=
  cs.foldl (fun a c => a * 10 + (c.toNat - 48)) 0

/-- Optional leading sign. -/
def parseSign : List Char → Int × List Char
  | '+' :: rest => (1, rest)
  | '-' :: rest => (-1, rest)
  | cs => (1, cs)

/-- Python whitespace characters stripped by `float()`. -/
def isSpaceChar (c : Char) : Bool :=
  c = ' ' ∨ c = '\t' ∨ c = '\n' ∨ c = '\r'

/-- Strip surrounding whitespace from a character list. -/
def stripChars (cs : List Char) : List Char :=
  ((cs.dropWhile isSpaceChar).reverse.dropWhile isSpaceChar).reverse

/-- Syntactic part of Python `float(s)`: optional surrounding whitespace and
sign, decimal digits with optional fractional part and optional exponent.
Returns `(m, d, e)` denoting the value `m / 10 ^ d * 10 ^ e`, or `none` when
the string is not such a literal (`float` raises `ValueError`). -/
def parseFloatParts (s : String) : Option (Int × Nat × Int) :=
  let p0 := parseSign (stripChars s.data)
  let sign := p0.1
  let p1 := spanDigits p0.2
  let ip := p1.1
  let p2 := match p1.2 with
    | '.' :: rest => spanDigits rest
    | cs => ([], cs)
  let fp := p2.1
  if ip.isEmpty ∧ fp.isEmpty then none
  else
    let mant : Int := sign * (digitsVal ip * 10 ^ fp.length + digitsVal fp)
    match p2.2 with
    | [] => some (mant, fp.length, 0)
    | c :: rest =>
      if c = 'e' ∨ c = 'E' then
        let p3 := parseSign rest
        let p4 := spanDigits p3.2
        if p4.1.isEmpty ∨ ¬ p4.2.isEmpty then none
        else some (mant, fp.length, p3.1 * (digitsVal p4.1 : Int))
      else none

/-- Rational value denoted by a parsed float literal. -/
def ratOfParts (p : Int × Nat × Int) : Rat :=
  (p.1 : Rat) / (10 : Rat) ^ p.2.1 * (10 : Rat) ^ p.2.2

/-- Models Python `float(s)` on a string. -/
def parseFloat (s : String) : Option Rat :=
  (parseFloatParts s).map ratOfParts

/-- The per-field coercion of `write_sensor_data` (lines 493-500):
`try: processed_value = float(value) except (ValueError, TypeError):
processed_value = value`. Python `float()` succeeds on numbers and booleans
(`float(True) = 1.0`) and on numeric-looking strings; only a non-numeric
string falls back to its original value. -/
def coerceFieldValue (v : FieldValue) : FieldValue :=
  match v with
  | FieldValue.num q => FieldValue.num q
  | FieldValue.bool b => FieldValue.num (if b then 1 else 0)
  | FieldValue.str s =>
    match parseFloat s with
    | some q => FieldValue.num q
    | none => FieldValue.str s

/-- Embeds `IngestData` from `models/ingest.py`. -/
structure IngestData : Type where
  timestamp : Nat
  measurement : String
  fields : List (String × FieldValue)
  tags : Option (List (String × String))
deriving DecidableEq, Repr

/-- The InfluxDB `Point` assembled by `write_sensor_data`. -/
structure Point : Type where
  measurement : String
  tags : List (String × String)
  fields : List (String × FieldValue)
  time : Nat
deriving DecidableEq, Repr

/-- Outcome of the store-side `write_api.write(...)` call: success or a
raised exception. -/
inductive StoreResult : Type where
  | ok
  | err
deriving DecidableEq, Repr

/-- The point `write_sensor_data` builds for an event (lines 480-505):
measurement from the event, mandatory `installation_id` tag followed by the
event tags, every field value numerically coerced, the event timestamp. -/
def ingestPoint (installation_id : String) (data : IngestData) : Point :=
  { measurement := data.measurement
    tags := ("installation_id", installation_id) :: (data.tags.getD [])
    fields := data.fields.map (fun kv => (kv.1, coerceFieldValue kv.2))
    time := data.timestamp }

/-- Embeds `write_sensor_data` (lines 471-518). `store` is the store-side
write outcome for the handed point. Returns the boolean result together with
the point handed to the store (`none` when the store was never contacted).
The surrounding `try/except Exception` means the function is total and
returns `false` on any store failure. -/
def write_sensor_data (installation_id : String) (data : IngestData)
    (store : Point → StoreResult) : Bool × Option Point :=
  if data.fields.isEmpty then (false, none)
  else
    let p := ingestPoint installation_id data
    match store p with
    | StoreResult.ok => (true, some p)
    | StoreResult.err => (false, some p)

/-! Helper lemmas shared by the claim theorems. -/

lemma updateLatestTimestamp_eq (acc : Option Nat) (t : Nat) :
    updateLatestTimestamp acc t = some (max (acc.getD t) t) := by
  cases acc with
  | none => simp [updateLatestTimestamp]
  | some u =>
    simp only [updateLatestTimestamp, Option.getD_some]
    split
    · rename_i h
      congr 1
      omega
    · rename_i h
      congr 1
      omega

lemma foldl_skip_none {σ : Type} (f : σ → Option Record → σ) (hf : ∀ s, f s none = s) :
    ∀ (batch : List (Option Record)) (s : σ), (∀ x ∈ batch, x = none) → batch.foldl f s = s := by
  intro batch
  induction batch with
  | nil => intro s _; rfl
  | cons r rest ih =>
    intro s h
    have hr : r = none := h r (by simp)
    subst hr
    simp only [List.foldl, hf]
    exact ih s (fun x hx => h x (by simp [hx]))

lemma elecFold_timestamp (tc : Option InstallationThresholds) (batch : List (Option Record)) :
    ∀ s : ElecState,
      (batch.foldl (elecStep tc) s).latest_timestamp = maxTimeFrom s.latest_timestamp batch := by
  induction batch with
  | nil => intro s; rfl
  | cons r rest ih =>
    intro s
    cases r with
    | none => simp [List.foldl, elecStep, maxTimeFrom, ih]
    | some rec =>
      simp only [List.foldl]
      rw [ih]
      simp [elecStep, maxTimeFrom, updateLatestTimestamp_eq]

lemma elecFold_ts_isSome (tc : Option InstallationThresholds) (batch : List (Option Record)) :
    ∀ s : ElecState, (s.latest_data ≠ [] → s.latest_timestamp.isSome) →
      (batch.foldl (elecStep tc) s).latest_data ≠ [] →
      (batch.foldl (elecStep tc) s).latest_timestamp.isSome := by
  induction batch with
  | nil => exact fun s h => h
  | cons r rest ih =>
    intro s h
    apply ih
    cases r with
    | none => simpa [elecStep] using h
    | some rec =>
      intro _
      simp [elecStep, updateLatestTimestamp_eq]

lemma physFold_timestamp (tc : Option InstallationThresholds) (batch : List (Option Record)) :
    ∀ s : PhysState,
      (batch.foldl (physStep tc) s).latest_timestamp = maxTimeFrom s.latest_timestamp batch := by
  induction batch with
  | nil => intro s; rfl
  | cons r rest ih =>
    intro s
    cases r with
    | none => simp [List.foldl, physStep, maxTimeFrom, ih]
    | some rec =>
      simp only [List.foldl]
      rw [ih]
      simp [physStep, maxTimeFrom, updateLatestTimestamp_eq]

lemma physFold_ts_isSome (tc : Option InstallationThresholds) (batch : List (Option Record)) :
    ∀ s : PhysState, (s.latest_data ≠ [] → s.latest_timestamp.isSome) →
      (batch.foldl (physStep tc) s).latest_data ≠ [] →
      (batch.foldl (physStep tc) s).latest_timestamp.isSome := by
  induction batch with
  | nil => exact fun s h => h
  | cons r rest ih =>
    intro s h
    apply ih
    cases r with
    | none => simpa [physStep] using h
    | some rec =>
      intro _
      simp [physStep, updateLatestTimestamp_eq]

lemma mem_keys_insertKV {α : Type} (d : List (String × α)) (k a : String) (v : α)
    (h : a ∈ (insertKV d k v).map Prod.fst) : a ∈ d.map Prod.fst ∨ a = k := by
  induction d with
  | nil => simpa [insertKV] using h
  | cons p rest ih =>
    obtain ⟨k2, v2⟩ := p
    by_cases hk : k2 = k
    · simp [insertKV, hk] at h
      rcases h with h | h
      · right; exact h
      · left; simp [h]
    · simp [insertKV, hk] at h
      rcases h with h | h
      · left; simp [h]
      · rcases ih (by simpa using h) with h2 | h2
        · left; simp [h2]
        · right; exact h2

lemma insertKV_keys_nodup {α : Type} (d : List (String × α)) (k : String) (v : α)
    (h : (d.map Prod.fst).Nodup) : ((insertKV d k v).map Prod.fst).Nodup := by
  induction d with
  | nil => simp [insertKV]
  | cons p rest ih =>
    obtain ⟨k2, v2⟩ := p
    simp only [List.map_cons, List.nodup_cons] at h
    by_cases hk : k2 = k
    · simp only [insertKV, hk, if_pos, List.map_cons, List.nodup_cons]
      exact ⟨by simpa [hk] using h.1, h.2⟩
    · simp only [insertKV, hk, if_neg, not_false_iff, List.map_cons, List.nodup_cons]
      refine ⟨fun hmem => ?_, ih h.2⟩
      rcases mem_keys_insertKV rest k k2 v hmem with h2 | h2
      · exact h.1 h2
      · exact hk h2

/-! Claim theorems. -/

/-- C1: `_calculate_severity` evaluates its rules strictly in order with first
match winning: absent value or thresholds give UNKNOWN; then `critical_low`
defined and below it gives CRITICAL_LOW; then `low`; then `critical_high`
above; then `high`; otherwise NORMAL. The concrete thresholds
`{critical_low:10, low:20, high:80, critical_high:90}` classify 5, 15, 50,
85, 95 as CRITICAL_LOW, LOW, NORMAL, HIGH, CRITICAL_HIGH. -/
theorem calculate_severity_spec :
    (∀ t, calculate_severity none t = SeverityLevel.UNKNOWN)
    ∧ (∀ v, calculate_severity v none = SeverityLevel.UNKNOWN)
    ∧ (∀ v t, checkBelow t.critical_low v = true →
        calculate_severity (some v) (some t) = SeverityLevel.CRITICAL_LOW)
    ∧ (∀ v t, checkBelow t.critical_low v = false → checkBelow t.low v = true →
        calculate_severity (some v) (some t) = SeverityLevel.LOW)
    ∧ (∀ v t, checkBelow t.critical_low v = false → checkBelow t.low v = false →
        checkAbove t.critical_high v = true →
        calculate_severity (some v) (some t) = SeverityLevel.CRITICAL_HIGH)
    ∧ (∀ v t, checkBelow t.critical_low v = false → checkBelow t.low v = false →
        checkAbove t.critical_high v = false → checkAbove t.high v = true →
        calculate_severity (some v) (some t) = SeverityLevel.HIGH)
    ∧ (∀ v t, checkBelow t.critical_low v = false → checkBelow t.low v = false →
        checkAbove t.critical_high v = false → checkAbove t.high v = false →
        calculate_severity (some v) (some t) = SeverityLevel.NORMAL)
    ∧ calculate_severity (some 5) (some ⟨some 10, some 20, some 80, some 90⟩)
        = SeverityLevel.CRITICAL_LOW
    ∧ calculate_severity (some 15) (some ⟨some 10, some 20, some 80, some 90⟩)
        = SeverityLevel.LOW
    ∧ calculate_severity (some 50) (some ⟨some 10, some 20, some 80, some 90⟩)
        = SeverityLevel.NORMAL
    ∧ calculate_severity (some 85) (some ⟨some 10, some 20, some 80, some 90⟩)
        = SeverityLevel.HIGH
    ∧ calculate_severity (some 95) (some ⟨some 10, some 20, some 80, some 90⟩)
        = SeverityLevel.CRITICAL_HIGH := by
  refine ⟨fun t => ?_, fun v => ?_, fun v t h1 => ?_, fun v t h1 h2 => ?_,
    fun v t h1 h2 h3 => ?_, fun v t h1 h2 h3 h4 => ?_, fun v t h1 h2 h3 h4 => ?_,
    by decide, by decide, by decide, by decide, by decide⟩
  · cases t <;> rfl
  · cases v <;> rfl
  · simp [calculate_severity, h1]
  · simp [calculate_severity, h1, h2]
  · simp [calculate_severity, h1, h2, h3]
  · simp [calculate_severity, h1, h2, h3, h4]
  · simp [calculate_severity, h1, h2, h3, h4]

/-- C1 witness: the LOW rule applied at value 15 against the example
threshold set, with both guard hypotheses discharged concretely. -/
theorem calculate_severity_spec_witness :
    calculate_severity (some 15) (some ⟨some 10, some 20, some 80, some 90⟩)
      = SeverityLevel.LOW :=
  calculate_severity_spec.2.2.2.1 15 ⟨some 10, some 20, some 80, some 90⟩
    (by decide) (by decide)

/-- C10: the realtime electrical threshold resolution covers only voltage,
current, frequency and power_factor, so a record with measurement
active_power, apparent_power, reactive_power or energy always yields
severity UNKNOWN, whatever the installation's threshold configuration and
the record's value. -/
theorem unthresholded_electrical_severity_unknown
    (tc : Option InstallationThresholds) (r : Record)
    (h : r.measurement = "active_power" ∨ r.measurement = "apparent_power" ∨
         r.measurement = "reactive_power" ∨ r.measurement = "energy") :
    (mkElectricalValue tc r).severity = SeverityLevel.UNKNOWN := by
  have hthr : electricalThresholdsFor tc r.measurement = none := by
    rcases tc with _ | cfg
    · rfl
    · rcases h with h | h | h | h <;> simp [electricalThresholdsFor, h]
  cases hv : r.value <;> simp [mkElectricalValue, hthr, hv, calculate_severity]

/-- C10 witness: an active_power record with a known numeric value under the
fully configured siteA-mainpanel installation still gets severity UNKNOWN. -/
theorem unthresholded_electrical_severity_unknown_witness :
    (mkElectricalValue (get_thresholds_for_installation "siteA-mainpanel")
      ⟨"active_power", "phase_a", some 50, 0, none⟩).severity = SeverityLevel.UNKNOWN :=
  unthresholded_electrical_severity_unknown _ _ (Or.inl rfl)

/-- C8: the ingestion writer returns false without contacting the store when
the event's field set is empty, returns false when the store-side write
fails, and returns true exactly when the fields are non-empty and the store
accepted the point. (The embedding is a total function: the source's
`try/except Exception` means no exception escapes the writer.) -/
theorem write_sensor_data_contract (installation_id : String) (data : IngestData)
    (store : Point → StoreResult) :
    (data.fields = [] → write_sensor_data installation_id data store = (false, none))
    ∧ (store (ingestPoint installation_id data) = StoreResult.err →
        (write_sensor_data installation_id data store).1 = false)
    ∧ ((write_sensor_data installation_id data store).1 = true ↔
        data.fields ≠ [] ∧ store (ingestPoint installation_id data) = StoreResult.ok) := by
  refine ⟨fun h => ?_, fun h => ?_, ?_⟩
  · simp [write_sensor_data, h]
  · cases hf : data.fields with
    | nil => simp [write_sensor_data, hf]
    | cons a rest =>
      have : ¬ data.fields.isEmpty = true := by simp [hf]
      simp [write_sensor_data, this, h]
  · cases hf : data.fields with
    | nil => simp [write_sensor_data, hf]
    | cons a rest =>
      have hne : ¬ data.fields.isEmpty = true := by simp [hf]
      cases hs : store (ingestPoint installation_id data) <;>
        simp [write_sensor_data, hne, hs, hf]

/-- C8 witness: an event with no fields is rejected with no store contact. -/
theorem write_sensor_data_contract_witness :
    write_sensor_data "siteA-mainpanel" ⟨0, "temperature", [], none⟩
      (fun _ => StoreResult.ok) = (false, none) :=
  (write_sensor_data_contract "siteA-mainpanel" ⟨0, "temperature", [], none⟩
    (fun _ => StoreResult.ok)).1 rfl

/-- C5 counterexample: a boolean field does not round-trip as a boolean.
Python `float(True)` succeeds (booleans are ints), so the writer stores the
number 1.0 for `{"on": true}` instead of the original boolean. -/
theorem ingest_bool_not_roundtrip :
    (write_sensor_data "inst" ⟨0, "relay", [("on", FieldValue.bool true)], none⟩
        (fun _ => StoreResult.ok)).2
      = some ⟨"relay", [("installation_id", "inst")], [("on", FieldValue.num 1)], 0⟩
    ∧ FieldValue.num 1 ≠ FieldValue.bool true := by
  exact ⟨by decide, by decide⟩

/-- C5 amended: every field value is attempted as a numeric coercion first;
a numeric-looking string such as "22.5" is written as the number 22.5, a
non-numeric string is written unchanged, and a boolean is coerced to the
number 1 or 0 (Python `float()` accepts booleans), not kept as a boolean. -/
theorem ingest_field_coercion :
    (∀ installation_id data, (ingestPoint installation_id data).fields
        = data.fields.map (fun kv => (kv.1, coerceFieldValue kv.2)))
    ∧ (∀ s q, parseFloat s = some q →
        coerceFieldValue (FieldValue.str s) = FieldValue.num q)
    ∧ (∀ s, parseFloat s = none →
        coerceFieldValue (FieldValue.str s) = FieldValue.str s)
    ∧ (∀ b, coerceFieldValue (FieldValue.bool b) = FieldValue.num (if b then 1 else 0))
    ∧ (∀ q, coerceFieldValue (FieldValue.num q) = FieldValue.num q)
    ∧ coerceFieldValue (FieldValue.str "22.5") = FieldValue.num (45 / 2)
    ∧ coerceFieldValue (FieldValue.str "auto") = FieldValue.str "auto" := by
  refine ⟨fun id data => rfl, fun s q h => ?_, fun s h => ?_,
    fun b => rfl, fun q => rfl, ?_, ?_⟩
  · simp [coerceFieldValue, h]
  · simp [coerceFieldValue, h]
  · have hp : parseFloatParts "22.5" = some (225, 1, 0) := by decide
    simp [coerceFieldValue, parseFloat, hp, ratOfParts]
    norm_num
  · have hp : parseFloatParts "auto" = none := by decide
    simp [coerceFieldValue, parseFloat, hp]

/-- C5 amended witness: the non-numeric string rule applied at "auto". -/
theorem ingest_field_coercion_witness :
    coerceFieldValue (FieldValue.str "auto") = FieldValue.str "auto" :=
  ingest_field_coercion.2.2.1 "auto"
    (by simp [parseFloat, show parseFloatParts "auto" = none from by decide])

/-- C6: evaluation at the failing input. A record whose value is null passes
extraction but fails `HistoricalDataPoint` validation after the
`grouped_data[name] = []` initialisation, so the historical physical mapper
returns a grouped object with the residual empty series "Level" — the
output is not the one for the batch with that record removed (which the
claim, and the spec's no-empty-list invariant, require). -/
theorem historical_null_value_residue :
    get_historical_physical_data "i" 0 10
        [some ⟨"temperature", "value", some 22, 5, none⟩,
         some ⟨"level", "tank_1", none, 6, none⟩]
      = some ⟨"i", 0, 10, [("Temperature", [⟨5, 22, "°C"⟩]), ("Level", [])]⟩
    ∧ get_historical_physical_data "i" 0 10
        [some ⟨"temperature", "value", some 22, 5, none⟩]
      = some ⟨"i", 0, 10, [("Temperature", [⟨5, 22, "°C"⟩])]⟩
    ∧ get_historical_physical_data "i" 0 10
        [some ⟨"temperature", "value", some 22, 5, none⟩,
         some ⟨"level", "tank_1", none, 6, none⟩]
      ≠ get_historical_physical_data "i" 0 10
        [some ⟨"temperature", "value", some 22, 5, none⟩] := by
  exact ⟨by decide, by decide, by decide⟩

/-- C3: in the realtime physical mapper each measurement holds at most one
scalar value (the accumulator keys are distinct); a record is stored when its
measurement has no entry yet or its field is the canonical "value" (then it
overwrites any prior entry), and a non-"value" record is ignored when an
entry already exists; among several "value" records for the same measurement
the last one processed wins. -/
theorem physical_canonical_field_rule :
    (∀ tc (s : PhysState) (rec : Record), lookup s.latest_data rec.measurement = none →
        (physStep tc s (some rec)).latest_data
          = insertKV s.latest_data rec.measurement (mkPhysicalValue tc rec))
    ∧ (∀ tc (s : PhysState) (rec : Record), rec.field = "value" →
        (physStep tc s (some rec)).latest_data
          = insertKV s.latest_data rec.measurement (mkPhysicalValue tc rec))
    ∧ (∀ tc (s : PhysState) (rec : Record),
        (lookup s.latest_data rec.measurement).isSome → rec.field ≠ "value" →
        (physStep tc s (some rec)).latest_data = s.latest_data)
    ∧ (∀ (tc : Option InstallationThresholds) (batch : List (Option Record)),
        (((batch.foldl (physStep tc) ⟨[], none⟩).latest_data).map Prod.fst).Nodup)
    ∧ (∀ tc v1 v2 v3 t1 t2 t3 l1 l2 l3,
        (List.foldl (physStep tc) ⟨[], none⟩
          [some ⟨"temperature", "value", v1, t1, l1⟩,
           some ⟨"temperature", "sensor_2", v2, t2, l2⟩,
           some ⟨"temperature", "value", v3, t3, l3⟩]).latest_data
        = [("temperature", mkPhysicalValue tc ⟨"temperature", "value", v3, t3, l3⟩)]) := by
  refine ⟨fun tc s rec h => ?_, fun tc s rec h => ?_, fun tc s rec h1 h2 => ?_,
    fun tc batch => ?_, fun tc v1 v2 v3 t1 t2 t3 l1 l2 l3 => ?_⟩
  · simp [physStep, h]
  · simp [physStep, h]
  · obtain ⟨x, hx⟩ := Option.isSome_iff_exists.mp h1
    simp [physStep, hx, h2]
  · have main : ∀ (batch : List (Option Record)) (s : PhysState),
        ((s.latest_data.map Prod.fst).Nodup) →
        (((batch.foldl (physStep tc) s).latest_data).map Prod.fst).Nodup := by
      intro batch
      induction batch with
      | nil => exact fun s h => h
      | cons r rest ih =>
        intro s h
        apply ih
        cases r with
        | none => simpa [physStep] using h
        | some rec =>
          simp only [physStep]
          split
          · exact insertKV_keys_nodup _ _ _ h
          · exact h
    exact main batch ⟨[], none⟩ (by simp)
  · simp [List.foldl, physStep, lookup, insertKV]

/-- C3 witness: a non-"value" record for an already-resolved measurement is
ignored (the ignore rule applied at a concrete state and record). -/
theorem physical_canonical_field_rule_witness :
    (physStep none
      ⟨[("temperature", mkPhysicalValue none ⟨"temperature", "value", some 21, 0, none⟩)], none⟩
      (some ⟨"temperature", "sensor_2", some 35, 9, none⟩)).latest_data
    = [("temperature", mkPhysicalValue none ⟨"temperature", "value", some 21, 0, none⟩)] :=
  physical_canonical_field_rule.2.2.1 none
    ⟨[("temperature", mkPhysicalValue none ⟨"temperature", "value", some 21, 0, none⟩)], none⟩
    ⟨"temperature", "sensor_2", some 35, 9, none⟩ (by decide) (by decide)

/-- C4: historical series naming. Electrical: titlecased measurement and
field joined by a space, except frequency and energy which use the
measurement alone for any field; physical: titlecased measurement, with the
titlecased field appended only when the field is not "value" and the value
is non-null; and a parsed record is grouped under exactly that name.
Examples: "Active Power Phase A", "Frequency", "Level Tank 1",
"Temperature". -/
theorem historical_series_naming :
    (∀ m f, ¬ (m = "frequency" ∨ m = "energy") →
        electricalSeriesName m f = titlecase m ++ " " ++ titlecase f)
    ∧ (∀ f, electricalSeriesName "frequency" f = "Frequency")
    ∧ (∀ f, electricalSeriesName "energy" f = "Energy")
    ∧ (∀ m f v, f = "value" ∨ v = none → physicalSeriesName m f v = titlecase m)
    ∧ (∀ m f (v : Rat), f ≠ "value" →
        physicalSeriesName m f (some v) = titlecase m ++ " " ++ titlecase f)
    ∧ (∀ (m f : String) (v : Rat) (t : Nat) (loc : Option String),
        histElecStep [] (some ⟨m, f, some v, t, loc⟩)
          = [(electricalSeriesName m f, [⟨t, v, get_unit_for_measurement m (some f)⟩])])
    ∧ (∀ (m f : String) (v : Rat) (t : Nat) (loc : Option String),
        histPhysStep [] (some ⟨m, f, some v, t, loc⟩)
          = [(physicalSeriesName m f (some v), [⟨t, v, get_unit_for_measurement m (some f)⟩])])
    ∧ electricalSeriesName "active_power" "phase_a" = "Active Power Phase A"
    ∧ electricalSeriesName "frequency" "value" = "Frequency"
    ∧ physicalSeriesName "level" "tank_1" (some 1) = "Level Tank 1"
    ∧ physicalSeriesName "temperature" "value" (some 20) = "Temperature" := by
  refine ⟨fun m f h => ?_, fun f => ?_, fun f => ?_, fun m f v h => ?_,
    fun m f v h => ?_, fun m f v t loc => ?_, fun m f v t loc => ?_,
    by decide, by decide, by decide, by decide⟩
  · simp [electricalSeriesName, h]
  · simp [electricalSeriesName]
    decide
  · simp [electricalSeriesName]
    decide
  · rcases h with h | h <;> simp [physicalSeriesName, h]
  · simp [physicalSeriesName, h]
  · simp [histElecStep, lookup, insertKV]
  · simp [histPhysStep, lookup, insertKV]

/-- C4 witness: the general electrical naming rule applied to a voltage
phase record. -/
theorem historical_series_naming_witness :
    electricalSeriesName "voltage" "phase_a" = titlecase "voltage" ++ " " ++ titlecase "phase_a" :=
  historical_series_naming.1 "voltage" "phase_a" (by decide)

/-- C7: evaluation at the failing input. The claim says a batch in which
every record is skipped, so that zero measurements or zero series resolve,
yields absent, never an empty-but-present object. The realtime paths and
extraction-failure skips behave that way, but on both historical paths a
batch whose only record extracts with a null value is entirely skipped
(its point fails validation) yet the function returns a present grouped
object whose data map holds one residual empty series -- the same
initialise-before-validate slip that leaves empty series entries behind. -/
theorem historical_all_skipped_present :
    get_historical_physical_data "i" 0 10 [some ⟨"level", "tank_1", none, 6, none⟩]
      = some ⟨"i", 0, 10, [("Level", [])]⟩
    ∧ get_historical_electrical_data "i" 0 10 [some ⟨"voltage", "phase_a", none, 6, none⟩]
      = some ⟨"i", 0, 10, [("Voltage Phase A", [])]⟩
    ∧ get_historical_physical_data "i" 0 10 [some ⟨"level", "tank_1", none, 6, none⟩] ≠ none := by
  exact ⟨by decide, by decide, by decide⟩

/-- C9: the realtime record mappers are pure functions of the batch and the
registry snapshot: the wall-clock argument (`datetime.utcnow()` in the
timestamp fallback) never influences the output, because whenever a result
is produced the timestamp comes from the batch's own record times. (The
historical mappers take no wall-clock input at all, so their purity is
immediate from the embedding.) -/
theorem realtime_mapper_now_independent (now1 now2 : Nat) (installation_id : String)
    (tc : Option InstallationThresholds) (batch : List (Option Record)) :
    get_realtime_electrical_data now1 installation_id tc batch
      = get_realtime_electrical_data now2 installation_id tc batch
    ∧ get_realtime_physical_data now1 installation_id tc batch
      = get_realtime_physical_data now2 installation_id tc batch := by
  constructor
  · cases hb : batch.isEmpty
    · by_cases hld : (batch.foldl (elecStep tc) ⟨[], none⟩).latest_data.isEmpty
      · simp [get_realtime_electrical_data, hb, hld]
      · have hsome : (batch.foldl (elecStep tc) ⟨[], none⟩).latest_timestamp.isSome := by
          apply elecFold_ts_isSome tc batch ⟨[], none⟩ (by simp)
          simpa [List.isEmpty_iff] using hld
        obtain ⟨t, ht⟩ := Option.isSome_iff_exists.mp hsome
        simp [get_realtime_electrical_data, hb, hld, ht]
    · simp [get_realtime_electrical_data, hb]
  · cases hb : batch.isEmpty
    · by_cases hld : (batch.foldl (physStep tc) ⟨[], none⟩).latest_data.isEmpty
      · simp [get_realtime_physical_data, hb, hld]
      · have hsome : (batch.foldl (physStep tc) ⟨[], none⟩).latest_timestamp.isSome := by
          apply physFold_ts_isSome tc batch ⟨[], none⟩ (by simp)
          simpa [List.isEmpty_iff] using hld
        obtain ⟨t, ht⟩ := Option.isSome_iff_exists.mp hsome
        simp [get_realtime_physical_data, hb, hld, ht]
    · simp [get_realtime_physical_data, hb]

/-- C2: the realtime electrical mapper's snapshot timestamp is the maximum
record time observed across all successfully parsed records whenever a
result is produced; a voltage batch with only phase_a and phase_b yields
`PhaseData{a,b,c=null}` (absent phase is null, not an error) with timestamp
`max T1 T2`; and each phase measurement is assembled from its
phase_a/phase_b/phase_c fields while frequency reads the "value" field,
energy's "total_kwh" and active_power's "total" fields populate the two
scalar outputs. -/
theorem realtime_electrical_mapping :
    (∀ now installation_id tc (batch : List (Option Record)) r,
        get_realtime_electrical_data now installation_id tc batch = some r →
        some r.timestamp = batchMaxTime batch)
    ∧ (∀ now installation_id tc T1 T2 v1 v2,
        get_realtime_electrical_data now installation_id tc
          [some ⟨"voltage", "phase_a", v1, T1, none⟩, some ⟨"voltage", "phase_b", v2, T2, none⟩]
        = some ⟨max T1 T2, installation_id,
            some ⟨some (mkElectricalValue tc ⟨"voltage", "phase_a", v1, T1, none⟩),
                  some (mkElectricalValue tc ⟨"voltage", "phase_b", v2, T2, none⟩), none⟩,
            none, none, none, none, none, none, none, none⟩)
    ∧ get_realtime_electrical_data 0 "x" none [some ⟨"current", "phase_c", some 9, 4, none⟩]
        = some ⟨4, "x", none, some ⟨none, none, some ⟨some 9, "A", SeverityLevel.UNKNOWN⟩⟩,
            none, none, none, none, none, none, none⟩
    ∧ get_realtime_electrical_data 0 "x" none [some ⟨"active_power", "phase_a", some 3, 4, none⟩]
        = some ⟨4, "x", none, none, some ⟨some ⟨some 3, "kW", SeverityLevel.UNKNOWN⟩, none, none⟩,
            none, none, none, none, none, none⟩
    ∧ get_realtime_electrical_data 0 "x" none [some ⟨"apparent_power", "phase_a", some 5, 4, none⟩]
        = some ⟨4, "x", none, none, none, some ⟨some ⟨some 5, "kVA", SeverityLevel.UNKNOWN⟩, none, none⟩,
            none, none, none, none, none⟩
    ∧ get_realtime_electrical_data 0 "x" none [some ⟨"reactive_power", "phase_b", some 2, 4, none⟩]
        = some ⟨4, "x", none, none, none, none, some ⟨none, some ⟨some 2, "kVAR", SeverityLevel.UNKNOWN⟩, none⟩,
            none, none, none, none⟩
    ∧ get_realtime_electrical_data 0 "x" none [some ⟨"power_factor", "phase_a", some 1, 4, none⟩]
        = some ⟨4, "x", none, none, none, none, none, some ⟨some ⟨some 1, "", SeverityLevel.UNKNOWN⟩, none, none⟩,
            none, none, none⟩
    ∧ get_realtime_electrical_data 0 "x" none [some ⟨"frequency", "value", some 50, 2, none⟩]
        = some ⟨2, "x", none, none, none, none, none, none,
            some ⟨some 50, "Hz", SeverityLevel.UNKNOWN⟩, none, none⟩
    ∧ get_realtime_electrical_data 0 "x" none [some ⟨"energy", "total_kwh", some 1234, 8, none⟩]
        = some ⟨8, "x", none, none, none, none, none, none, none, none,
            some ⟨some 1234, "kWh", SeverityLevel.UNKNOWN⟩⟩
    ∧ get_realtime_electrical_data 0 "x" none [some ⟨"active_power", "total", some 15, 3, none⟩]
        = some ⟨3, "x", none, none, some ⟨none, none, none⟩, none, none, none, none,
            some ⟨some 15, "kW", SeverityLevel.UNKNOWN⟩, none⟩ := by
  refine ⟨fun now installation_id tc batch r h => ?_,
    fun now installation_id tc T1 T2 v1 v2 => ?_,
    by decide, by decide, by decide, by decide, by decide, by decide, by decide, by decide⟩
  · simp only [get_realtime_electrical_data] at h
    split at h
    · exact absurd h (by simp)
    · split at h
      · exact absurd h (by simp)
      · rename_i hld
        have hsome : (batch.foldl (elecStep tc) ⟨[], none⟩).latest_timestamp.isSome := by
          apply elecFold_ts_isSome tc batch ⟨[], none⟩ (by simp)
          simpa [List.isEmpty_iff] using hld
        obtain ⟨t, ht⟩ := Option.isSome_iff_exists.mp hsome
        obtain rfl := (Option.some.injEq _ _ ▸ h)
        have hts := elecFold_timestamp tc batch ⟨[], none⟩
        simp only [batchMaxTime, ← hts, ht]
        simp
  · simp [get_realtime_electrical_data, List.foldl, elecStep, lookup, insertKV,
      updateLatestTimestamp_eq, phaseFor]

/-- C2 witness: the timestamp rule applied to a concrete two-record voltage
batch whose produced snapshot carries timestamp 7 = max(3, 7). -/
theorem realtime_electrical_mapping_witness :
    some (7 : Nat) = batchMaxTime
      [some ⟨"voltage", "phase_a", some 230, 3, none⟩,
       some ⟨"voltage", "phase_b", some 231, 7, none⟩] :=
  realtime_electrical_mapping.1 0 "x" none
    [some ⟨"voltage", "phase_a", some 230, 3, none⟩,
     some ⟨"voltage", "phase_b", some 231, 7, none⟩]
    ⟨7, "x",
      some ⟨some ⟨some 230, "V", SeverityLevel.UNKNOWN⟩,
            some ⟨some 231, "V", SeverityLevel.UNKNOWN⟩, none⟩,
      none, none, none, none, none, none, none, none⟩ (by decide)

end RPI
